import Mathlib

/-!
Shallow embedding of `rasa_core/channels/facebook.py` (Facebook Messenger
input/output channel) and proofs about it.

Python values flowing through the webhook are modelled by `PyVal` (JSON-like
data), Python exceptions by `PyErr`, and every fallible piece of code by
`Except PyErr _`.  Each Lean definition is translated from the corresponding
Python function; side effects (the send primitive, calls into the downstream
handler, log statements) are reified into explicit result structures.
-/

namespace FB

/-- A Python/JSON value as it appears in webhook payloads. -/
inductive PyVal where
  | none
  | pybool (b : Bool)
  | int (n : Int)
  | str (s : String)
  | list (xs : List PyVal)
  | dict (entries : List (String × PyVal))

/-- A Python exception kind (only the carriers the embedded code can raise). -/
inductive PyErr where
  | keyError (k : String)
  | attributeError (a : String)
  | typeError
  | indexError
  | valueError
deriving DecidableEq

/-- Python truthiness of a value (`bool(v)`). -/
def truthy : PyVal → Bool
  | .none => false
  | .pybool b => b
  | .int n => n != 0
  | .str s => s != ""
  | .list xs => !xs.isEmpty
  | .dict es => !es.isEmpty

/-- First-match lookup in an association list (Python dict keys are unique,
so first match is the match). -/
def lookupD : List (String × PyVal) → String → Option PyVal
  | [], _ => Option.none
  | (k, v) :: es, key => if k = key then some v else lookupD es key

/-- `key in d` for a dict given as an association list. -/
def hasKeyD (es : List (String × PyVal)) (key : String) : Bool :=
  (lookupD es key).isSome

/-- `d[k] = v` for an existing key `k`: replace in place, order preserved. -/
def setD : List (String × PyVal) → String → PyVal → List (String × PyVal)
  | [], _, _ => []
  | (k, w) :: es, key, v =>
    if k = key then (k, v) :: es else (k, w) :: setD es key v

/-- Python `v == "lit"` for a string literal: equality between strings,
`False` when `v` is not a string (Python `==` across types is `False`). -/
def pyEqStr (v : PyVal) (lit : String) : Bool :=
  match v with
  | .str s => s = lit
  | _ => false

/-- Python `v == n` for an integer `n` (as used by `in` on a `List[int]`):
`True == 1` and `False == 0` hold in Python, other types compare unequal. -/
def pyEqInt (v : PyVal) (n : Int) : Bool :=
  match v with
  | .int m => m = n
  | .pybool b => (if b then (1 : Int) else 0) = n
  | _ => false

/-- `d[k]`: raises `KeyError` for a missing key, `TypeError` when `d` is not
a dict (Python raises `TypeError` on `v['k']` for non-subscriptables and
non-string-keyed sequences alike). -/
def PyVal.getItem : PyVal → String → Except PyErr PyVal
  | .dict es, key =>
    match lookupD es key with
    | some v => .ok v
    | Option.none => .error (.keyError key)
  | _, _ => .error .typeError

/-- `d.get(k)`: `None` for a missing key; raises `AttributeError` when the
receiver is not a dict (no `get` attribute). -/
def PyVal.getAttrGet : PyVal → String → Except PyErr PyVal
  | .dict es, key =>
    match lookupD es key with
    | some v => .ok v
    | Option.none => .ok .none
  | _, _ => .error (.attributeError "get")

/-- `xs[0]`: list indexing; `IndexError` when out of range, `KeyError` when
the receiver is a dict (Python looks the integer up as a key), `TypeError`
otherwise. -/
def PyVal.index0 : PyVal → Except PyErr PyVal
  | .list xs =>
    match xs with
    | x :: _ => .ok x
    | [] => .error .indexError
  | .dict _ => .error (.keyError "0")
  | _ => .error .typeError

/-- `len(v)`: length of a string (code points), list, or dict; `TypeError`
on numbers, booleans and `None`. -/
def pyLen : PyVal → Except PyErr Nat
  | .str s => .ok s.length
  | .list xs => .ok xs.length
  | .dict es => .ok es.length
  | _ => .error .typeError

/-- A single-quote character, used by Python `repr` of strings. -/
def pyQuote : String := String.singleton (Char.ofNat 39)

mutual

/-- Python `repr(v)` (used for values nested inside containers). -/
def pyRepr : PyVal → String
  | .none => "None"
  | .pybool b => if b then "True" else "False"
  | .int n => toString n
  | .str s => pyQuote ++ s ++ pyQuote
  | .list xs => "[" ++ pyReprJoin xs ++ "]"
  | .dict es => "\x7b" ++ pyReprJoinD es ++ "\x7d"

/-- Comma-joined reprs of the members of a list. -/
def pyReprJoin : List PyVal → String
  | [] => ""
  | [x] => pyRepr x
  | x :: y :: xs => pyRepr x ++ ", " ++ pyReprJoin (y :: xs)

/-- Comma-joined reprs of the entries of a dict. -/
def pyReprJoinD : List (String × PyVal) → String
  | [] => ""
  | [(k, v)] => pyQuote ++ k ++ pyQuote ++ ": " ++ pyRepr v
  | (k, v) :: e :: es =>
    pyQuote ++ k ++ pyQuote ++ ": " ++ pyRepr v ++ ", " ++ pyReprJoinD (e :: es)

end

/-- Python `str(v)` / `"{}".format(v)`: identity on strings, `repr`-style
rendering otherwise. -/
def pyStr : PyVal → String
  | .str s => s
  | v => pyRepr v

/-! ### HMAC-SHA1 (the `hmac` / `hashlib` stdlib calls made by
`validate_hub_signature`).  Bytes are `Nat`s below 256, 32-bit words are
`Nat`s reduced modulo `2 ^ 32`. -/

/-- Rotate a 32-bit word left by `n` bits. -/
def rotl32 (n x : Nat) : Nat :=
  ((x <<< n) ||| (x >>> (32 - n))) % 2 ^ 32

/-- Big-endian 8-byte encoding of a (64-bit) natural number. -/
def bytesOfNat64 (n : Nat) : List Nat :=
  [(n >>> 56) % 256, (n >>> 48) % 256, (n >>> 40) % 256, (n >>> 32) % 256,
   (n >>> 24) % 256, (n >>> 16) % 256, (n >>> 8) % 256, n % 256]

/-- Big-endian 4-byte encoding of a 32-bit word. -/
def bytesOfWord (w : Nat) : List Nat :=
  [(w >>> 24) % 256, (w >>> 16) % 256, (w >>> 8) % 256, w % 256]

/-- SHA-1 padding: append `0x80`, zeros up to 56 mod 64, then the bit
length as 8 big-endian bytes. -/
def sha1Pad (msg : List Nat) : List Nat :=
  msg ++ [0x80] ++ List.replicate ((119 - msg.length % 64) % 64) 0
      ++ bytesOfNat64 (8 * msg.length)

/-- Group a byte list into big-endian 32-bit words. -/
def wordsOfBytes : List Nat → List Nat
  | b0 :: b1 :: b2 :: b3 :: rest =>
    (b3 ||| (b2 <<< 8) ||| (b1 <<< 16) ||| (b0 <<< 24)) :: wordsOfBytes rest
  | _ => []

/-- Split a byte list into 64-byte chunks. -/
def chunks64 : List Nat → List (List Nat)
  | [] => []
  | b :: l => (b :: l).take 64 :: chunks64 ((b :: l).drop 64)
termination_by l => l.length
decreasing_by
  simp only [List.length_drop, List.length_cons]
  omega

/-- Extend a 16-word block by `count` further schedule words
(`W[t] = rotl1 (W[t-3] xor W[t-8] xor W[t-14] xor W[t-16])`). -/
def sha1Expand (w : List Nat) : Nat → List Nat
  | 0 => w
  | k + 1 =>
    let n := w.length
    let t := rotl32 1 ((w.getD (n - 3) 0) ^^^ (w.getD (n - 8) 0) ^^^
                       (w.getD (n - 14) 0) ^^^ (w.getD (n - 16) 0))
    sha1Expand (w ++ [t]) k

/-- Round function and constant for SHA-1 round `t`. -/
def sha1FK (t b c d : Nat) : Nat × Nat :=
  if t < 20 then ((b &&& c) ||| ((b ^^^ 0xFFFFFFFF) &&& d), 0x5A827999)
  else if t < 40 then (b ^^^ c ^^^ d, 0x6ED9EBA1)
  else if t < 60 then ((b &&& c) ||| (b &&& d) ||| (c &&& d), 0x8F1BBCDC)
  else (b ^^^ c ^^^ d, 0xCA62C1D6)

/-- The 80 SHA-1 rounds over the schedule words. -/
def sha1Rounds : List Nat → Nat → Nat × Nat × Nat × Nat × Nat → Nat × Nat × Nat × Nat × Nat
  | [], _, st => st
  | wt :: rest, t, (a, b, c, d, e) =>
    let fk := sha1FK t b c d
    let tmp := (rotl32 5 a + fk.1 + e + fk.2 + wt) % 2 ^ 32
    sha1Rounds rest (t + 1) (tmp, a, rotl32 30 b, c, d)

/-- Compress one 64-byte chunk into the running 5-word state. -/
def sha1Compress (st : Nat × Nat × Nat × Nat × Nat) (chunk : List Nat) :
    Nat × Nat × Nat × Nat × Nat :=
  let (h0, h1, h2, h3, h4) := st
  let w := sha1Expand (wordsOfBytes chunk) 64
  let (a, b, c, d, e) := sha1Rounds w 0 (h0, h1, h2, h3, h4)
  ((h0 + a) % 2 ^ 32, (h1 + b) % 2 ^ 32, (h2 + c) % 2 ^ 32,
   (h3 + d) % 2 ^ 32, (h4 + e) % 2 ^ 32)

/-- SHA-1 digest of a byte list, as 20 bytes. -/
def sha1Bytes (msg : List Nat) : List Nat :=
  let init : Nat × Nat × Nat × Nat × Nat :=
    (0x67452301, 0xEFCDAB89, 0x98BADCFE, 0x10325476, 0xC3D2E1F0)
  let fin := (chunks64 (sha1Pad msg)).foldl sha1Compress init
  bytesOfWord fin.1 ++ bytesOfWord fin.2.1 ++ bytesOfWord fin.2.2.1 ++
    bytesOfWord fin.2.2.2.1 ++ bytesOfWord fin.2.2.2.2

/-- A hash function as exposed by the `hashlib` module: its digest over a
byte string and its HMAC block size. -/
structure HashFn where
  blockSize : Nat
  digest : List Nat → List Nat

/-- `hashlib.sha1` as a `HashFn`. -/
def sha1HashFn : HashFn := ⟨64, sha1Bytes⟩

/-- RFC 2104 HMAC digest (what `hmac.new(key, msg, digestmod).digest()`
computes). -/
def hmacDigest (h : HashFn) (key msg : List Nat) : List Nat :=
  let k0 := if h.blockSize < key.length then h.digest key else key
  let k := k0 ++ List.replicate (h.blockSize - k0.length) 0
  h.digest ((k.map (fun b => b ^^^ 0x5c)) ++
    h.digest ((k.map (fun b => b ^^^ 0x36)) ++ msg))

/-- The sixteen lowercase hex digits. -/
def hexChars : List Char := "0123456789abcdef".toList

/-- Hex digit for a nibble. -/
def hexDigit (n : Nat) : Char := hexChars.getD n '0'

/-- Lowercase hex rendering of a byte list (`.hexdigest()`). -/
def hexOfBytes : List Nat → List Char
  | [] => []
  | b :: bs => hexDigit (b / 16 % 16) :: hexDigit (b % 16) :: hexOfBytes bs

/-- `hmac.new(key, msg, digestmod).hexdigest()`. -/
def hmacHexdigest (h : HashFn) (key msg : List Nat) : List Char :=
  hexOfBytes (hmacDigest h key msg)

/-- UTF-8 encoding of one character (`bytearray(s, 'utf8')` per character). -/
def utf8EncodeChar (c : Char) : List Nat :=
  let n := c.toNat
  if n < 0x80 then [n]
  else if n < 0x800 then
    [0xC0 ||| (n >>> 6), 0x80 ||| (n &&& 0x3F)]
  else if n < 0x10000 then
    [0xE0 ||| (n >>> 12), 0x80 ||| ((n >>> 6) &&& 0x3F), 0x80 ||| (n &&& 0x3F)]
  else
    [0xF0 ||| (n >>> 18), 0x80 ||| ((n >>> 12) &&& 0x3F),
     0x80 ||| ((n >>> 6) &&& 0x3F), 0x80 ||| (n &&& 0x3F)]

/-- `bytearray(s, 'utf8')` for a whole string. -/
def utf8Encode (s : String) : List Nat :=
  (s.toList.map utf8EncodeChar).flatten

/-! ### `FacebookInput.validate_hub_signature` -/

/-- Python `header.split('=')` over the header's characters. -/
def splitOnEq : List Char → List (List Char)
  | [] => [[]]
  | c :: cs =>
    if c = '=' then [] :: splitOnEq cs
    else
      match splitOnEq cs with
      | [] => [[c]]
      | h :: t => (c :: h) :: t

/-- `hash_method, hub_signature = header.split('=')`: `some` exactly when the
split yields two parts; otherwise the unpacking raises `ValueError` (caught
by the caller). -/
def splitUnpack2 (l : List Char) : Option (List Char × List Char) :=
  match splitOnEq l with
  | [a, b] => some (a, b)
  | _ => Option.none

/-- `getattr(hashlib, name)` restricted to the hash constructors the claims
exercise: `sha1` resolves to a usable digest, every other name raises
`AttributeError`.  (CPython's `hashlib` also exposes sha224/sha256/…; only
`sha1` is ever sent by the platform and only it is modelled concretely —
a name outside `hashlib`'s attribute set, such as `foo`, raises just as
here.) -/
def hashlibAttr (name : List Char) : Option HashFn :=
  if name = "sha1".toList then some sha1HashFn else Option.none

/-- `FacebookInput.validate_hub_signature` (facebook.py lines 354-381).
The `try` covers only the split/unpack; `getattr` and the HMAC computation
run in the `else` block, so their exceptions propagate. -/
def validate_hub_signature (app_secret : String) (request_payload : List Nat)
    (hub_signature_header : List Char) : Except PyErr Bool :=
  match splitUnpack2 hub_signature_header with
  | Option.none => .ok false
  | some (hash_method, hub_signature) =>
    match hashlibAttr hash_method with
    | Option.none => .error (.attributeError (String.mk hash_method))
    | some digest_module =>
      let generated_hash :=
        hmacHexdigest digest_module (utf8Encode app_secret) request_payload
      if hub_signature = generated_hash then .ok true else .ok false

/-! ### The `Messenger` input class -/

/-- `rasa_core.channels.channel.UserMessage` as constructed by
`_handle_user_message`. -/
structure UserMessage where
  text : PyVal
  senderId : String
  inputChannel : String

/-- The observable side effects of handling one inbound event: thread-control
commands issued to the platform, texts forwarded to the downstream handler
(`on_new_message`), warnings logged, and handler exceptions logged. -/
structure Effects where
  sentCommands : List (PyVal × PyVal)
  forwards : List PyVal
  warnings : Nat
  loggedExceptions : Nat

namespace Messenger

/-- `Messenger._is_audio_message`: the Python `and`-chain
`msg.get('message') and msg['message'].get('attachments') and
msg['message']['attachments'][0]['type'] == 'audio'`, short-circuiting on
falsy values; subscripts raise on missing keys. -/
def _is_audio_message (msg : PyVal) : Except PyErr Bool := do
  let mv ← msg.getAttrGet "message"
  if !truthy mv then pure false
  else do
    let mm ← msg.getItem "message"
    let av ← mm.getAttrGet "attachments"
    if !truthy av then pure false
    else do
      let mm2 ← msg.getItem "message"
      let av2 ← mm2.getItem "attachments"
      let a0 ← av2.index0
      let tv ← a0.getItem "type"
      pure (pyEqStr tv "audio")

/-- `Messenger._is_user_message`: `msg.get('message') and
msg['message'].get('text') and not msg['message'].get("is_echo")`. -/
def _is_user_message (msg : PyVal) : Except PyErr Bool := do
  let mv ← msg.getAttrGet "message"
  if !truthy mv then pure false
  else do
    let mm ← msg.getItem "message"
    let tv ← mm.getAttrGet "text"
    if !truthy tv then pure false
    else do
      let mm2 ← msg.getItem "message"
      let ev ← mm2.getAttrGet "is_echo"
      pure (!truthy ev)

/-- `Messenger._is_user_location`: as `_is_audio_message` with type
`'location'`. -/
def _is_user_location (msg : PyVal) : Except PyErr Bool := do
  let mv ← msg.getAttrGet "message"
  if !truthy mv then pure false
  else do
    let mm ← msg.getItem "message"
    let av ← mm.getAttrGet "attachments"
    if !truthy av then pure false
    else do
      let mm2 ← msg.getItem "message"
      let av2 ← mm2.getItem "attachments"
      let a0 ← av2.index0
      let tv ← a0.getItem "type"
      pure (pyEqStr tv "location")

/-- `Messenger._is_request_thread_control`:
`msg.get('request_thread_control') and
msg['request_thread_control'].get('requested_owner_app_id')`. -/
def _is_request_thread_control (msg : PyVal) : Except PyErr Bool := do
  let rv ← msg.getAttrGet "request_thread_control"
  if !truthy rv then pure false
  else do
    let r2 ← msg.getItem "request_thread_control"
    let av ← r2.getAttrGet "requested_owner_app_id"
    pure (truthy av)

/-- `Messenger._is_pass_thread_control`: `msg.get('pass_thread_control') and
msg['pass_thread_control'].get('new_owner_app_id')`. -/
def _is_pass_thread_control (msg : PyVal) : Except PyErr Bool := do
  let pv ← msg.getAttrGet "pass_thread_control"
  if !truthy pv then pure false
  else do
    let p2 ← msg.getItem "pass_thread_control"
    let av ← p2.getAttrGet "new_owner_app_id"
    pure (truthy av)

/-- `Messenger._handle_user_message` (lines 98-112): builds a `UserMessage`
with input channel `"facebook"` and invokes `on_new_message` inside a
`try/except Exception` whose handler logs and swallows the error, so the
invocation itself never propagates an exception.  The forwarded text is
recorded either way. -/
def _handle_user_message (on_new_message : UserMessage → Except PyErr Unit)
    (text : PyVal) (sender_id : String) : Except PyErr Effects :=
  match on_new_message ⟨text, sender_id, "facebook"⟩ with
  | .ok _ => .ok ⟨[], [text], 0, 0⟩
  | .error _ => .ok ⟨[], [text], 0, 1⟩

/-- What `Messenger.message` decides to do with an event. -/
inductive MsgOutcome where
  | forwarded (text : PyVal)
  | ignored

/-- `Messenger.message` (lines 66-89), as the classification it performs:
which text (if any) is passed to `_handle_user_message`.  In the source the
forward happens inline in each branch; the branches and field accesses are
translated verbatim. -/
def message (msg : PyVal) : Except PyErr MsgOutcome := do
  let u ← _is_user_message msg
  if u then do
    let mm ← msg.getItem "message"
    let tv ← mm.getItem "text"
    let n ← pyLen tv
    if 512 < n then pure (.forwarded (.str "/long_text"))
    else pure (.forwarded tv)
  else do
    let a ← _is_audio_message msg
    if a then do
      let mm ← msg.getItem "message"
      let av ← mm.getItem "attachments"
      let a0 ← av.index0
      let pv ← a0.getItem "payload"
      let url ← pv.getItem "url"
      pure (.forwarded url)
    else do
      let lo ← _is_user_location msg
      if lo then do
        let mm ← msg.getItem "message"
        let av ← mm.getItem "attachments"
        let a0 ← av.index0
        let pv ← a0.getItem "payload"
        let cv ← pv.getItem "coordinates"
        let lat ← cv.getItem "lat"
        let lng ← cv.getItem "long"
        pure (.forwarded (.str (pyStr lat ++ " " ++ pyStr lng)))
      else
        pure .ignored

/-- `Messenger.message` with the inline forwarding restored: a forwarded
text goes through `_handle_user_message`, the unhandled branch logs one
warning. -/
def messageRun (on_new_message : UserMessage → Except PyErr Unit)
    (sender_id : String) (msg : PyVal) : Except PyErr Effects := do
  let o ← message msg
  match o with
  | .forwarded t => _handle_user_message on_new_message t sender_id
  | .ignored => pure ⟨[], [], 1, 0⟩

/-- `Messenger.postback` (lines 91-96): forward
`msg['postback']['payload']`. -/
def postback (on_new_message : UserMessage → Except PyErr Unit)
    (sender_id : String) (msg : PyVal) : Except PyErr Effects := do
  let pv ← msg.getItem "postback"
  let t ← pv.getItem "payload"
  _handle_user_message on_new_message t sender_id

/-- `Messenger.handover` (lines 130-144).  An authorized
request-thread-control event issues one pass-thread-control command and
forwards `/passed_thread_control`; an unauthorized one only logs a warning;
a pass-thread-control event forwards `/reconnect_user`. -/
def handover (thread_control_authorized : List Int)
    (on_new_message : UserMessage → Except PyErr Unit)
    (sender_id : String) (msg : PyVal) : Except PyErr Effects := do
  let r ← _is_request_thread_control msg
  if r then do
    let rv ← msg.getItem "request_thread_control"
    let appId ← rv.getItem "requested_owner_app_id"
    if !(thread_control_authorized.any (fun n => pyEqInt appId n)) then
      pure ⟨[], [], 1, 0⟩
    else do
      let rv2 ← msg.getItem "request_thread_control"
      let md ← rv2.getItem "metadata"
      let e ← _handle_user_message on_new_message (.str "/passed_thread_control") sender_id
      pure ⟨[(appId, md)], e.forwards, e.warnings, e.loggedExceptions⟩
  else do
    let p ← _is_pass_thread_control msg
    if p then
      _handle_user_message on_new_message (.str "/reconnect_user") sender_id
    else
      pure ⟨[], [], 0, 0⟩

/-- Modelled from the spec: the per-event dispatch done by the external
`fbmessenger` library's `BaseMessenger.handle` (the library is not part of
src/).  Spec section 4.4 routes a message-bearing event to `message`, a
postback event to `postback`, thread-control events to `handover`, and
treats delivery/read/optin/account-linking receipts as no-ops. -/
def handleEvent (thread_control_authorized : List Int)
    (on_new_message : UserMessage → Except PyErr Unit)
    (sender_id : String) (evt : PyVal) : Except PyErr Effects :=
  match evt with
  | .dict es =>
    if hasKeyD es "message" then messageRun on_new_message sender_id evt
    else if hasKeyD es "postback" then postback on_new_message sender_id evt
    else if hasKeyD es "request_thread_control" || hasKeyD es "pass_thread_control" then
      handover thread_control_authorized on_new_message sender_id evt
    else .ok ⟨[], [], 0, 0⟩
  | _ => .ok ⟨[], [], 0, 0⟩

end Messenger

/-- The `POST /webhook` route of `FacebookInput.blueprint` (lines 338-350):
reject with body `"not validated"` (and a logged warning) when the
signature check fails, otherwise dispatch the parsed event and answer
`"success"`. -/
def webhook (fb_secret : String) (request_data : List Nat)
    (signature : List Char) (thread_control_authorized : List Int)
    (on_new_message : UserMessage → Except PyErr Unit)
    (sender_id : String) (evt : PyVal) : Except PyErr (String × Effects) := do
  let ok ← validate_hub_signature fb_secret request_data signature
  if !ok then pure ("not validated", ⟨[], [], 1, 0⟩)
  else do
    let e ← Messenger.handleEvent thread_control_authorized on_new_message sender_id evt
    pure ("success", e)

/-! ### The `MessengerBot` output channel -/

/-- A payload handed to the messenger client's send primitive. -/
inductive OutPayload where
  | textMsg (s : String)
  | imageMsg (url : String)
  | buttonTemplate (text : String) (buttons : List PyVal)
  | genericTemplate (elements : List PyVal)
  | quickRepliesMsg (text : String) (quick_replies : List PyVal)

/-- Whether a payload is a button-template payload. -/
def OutPayload.isButtonTemplate : OutPayload → Bool
  | .buttonTemplate _ _ => true
  | _ => false

/-- Error-propagating map over a list (each Python `for` loop body may
raise). -/
def exMapM (f : PyVal → Except PyErr PyVal) : List PyVal → Except PyErr (List PyVal)
  | [] => .ok []
  | a :: as =>
    match f a with
    | .error e => .error e
    | .ok b =>
      match exMapM f as with
      | .error e => .error e
      | .ok bs => .ok (b :: bs)

namespace MessengerBot

/-- Python `message.split("\n\n")`: leftmost, non-overlapping split of the
character list on a double newline. -/
def splitDoubleNL : List Char → List (List Char)
  | [] => [[]]
  | '\n' :: '\n' :: rest => [] :: splitDoubleNL rest
  | c :: rest =>
    match splitDoubleNL rest with
    | [] => [[c]]
    | h :: t => (c :: h) :: t

/-- `MessengerBot.send_text_message` (lines 169-175): one `FBText` element
per `"\n\n"`-separated part, in order. -/
def send_text_message (message : String) : List OutPayload :=
  (splitDoubleNL message.toList).map (fun p => .textMsg (String.mk p))

/-- `MessengerBot.send_image_url` (lines 177-180). -/
def send_image_url (image_url : String) : List OutPayload :=
  [.imageMsg image_url]

/-- The body of `_add_postback_info`'s loop on one button: `if 'type' not in
button: button['type'] = "postback"` (assignment of a fresh key appends at
the end of the dict).  A non-dict button raises `TypeError` (in Python the
membership test or item assignment on it raises). -/
def normalizeButton (b : PyVal) : Except PyErr PyVal :=
  match b with
  | .dict es =>
    if hasKeyD es "type" then .ok (.dict es)
    else .ok (.dict (es ++ [("type", .str "postback")]))
  | _ => .error .typeError

/-- `MessengerBot._add_postback_info` (lines 261-266), as the list the
in-place loop leaves behind. -/
def _add_postback_info (buttons : List PyVal) : Except PyErr (List PyVal) :=
  exMapM normalizeButton buttons

/-- The body of `_add_text_info`'s loop on one quick reply: `if
'content_type' not in quick_reply: quick_reply['content_type'] = "text"`. -/
def normalizeQuickReply (q : PyVal) : Except PyErr PyVal :=
  match q with
  | .dict es =>
    if hasKeyD es "content_type" then .ok (.dict es)
    else .ok (.dict (es ++ [("content_type", .str "text")]))
  | _ => .error .typeError

/-- `MessengerBot._add_text_info` (lines 268-275). -/
def _add_text_info (quick_replies : List PyVal) : Except PyErr (List PyVal) :=
  exMapM normalizeQuickReply quick_replies

/-- `MessengerBot.send_text_with_buttons` (lines 182-211): with more than 3
buttons, log a warning and fall back to `send_text_message`; otherwise
default the button types and send one button-template payload.  Returns the
payloads handed to the send primitive and the number of warnings logged. -/
def send_text_with_buttons (text : String) (buttons : List PyVal) :
    Except PyErr (List OutPayload × Nat) :=
  if 3 < buttons.length then
    .ok (send_text_message text, 1)
  else
    match _add_postback_info buttons with
    | .error e => .error e
    | .ok buttons2 => .ok ([.buttonTemplate text buttons2], 0)

/-- `MessengerBot.send_quick_replies` (lines 213-228). -/
def send_quick_replies (text : String) (quick_replies : List PyVal) :
    Except PyErr (List OutPayload × Nat) :=
  match _add_text_info quick_replies with
  | .error e => .error e
  | .ok qs => .ok ([.quickRepliesMsg text qs], 0)

/-- The body of `send_custom_message`'s loop on one element:
`_add_postback_info(element['buttons'])` mutates the button list held under
the element's `'buttons'` key (missing key: `KeyError`; non-list value:
the loop in `_add_postback_info` raises `TypeError`). -/
def normalizeElement (el : PyVal) : Except PyErr PyVal :=
  match el with
  | .dict es =>
    match lookupD es "buttons" with
    | Option.none => .error (.keyError "buttons")
    | some bv =>
      match bv with
      | .list bs =>
        match _add_postback_info bs with
        | .error e => .error e
        | .ok bs2 => .ok (.dict (setD es "buttons" (.list bs2)))
      | _ => .error .typeError
  | _ => .error .typeError

/-- `MessengerBot.send_custom_message` (lines 241-259): normalize each
element's buttons in place, then send one generic-template payload carrying
all elements. -/
def send_custom_message (elements : List PyVal) :
    Except PyErr (List OutPayload × Nat) :=
  match exMapM normalizeElement elements with
  | .error e => .error e
  | .ok els => .ok ([.genericTemplate els], 0)

end MessengerBot

/-- The well-formed signature header for a body: `"sha1=" + hexdigest`. -/
def sha1SigHeader (secret : String) (body : List Nat) : List Char :=
  "sha1".toList ++ '=' :: hmacHexdigest sha1HashFn (utf8Encode secret) body

/-- Whether an embedded computation returned normally. -/
def exceptIsOk {α : Type} : Except PyErr α → Bool
  | .ok _ => true
  | .error _ => false

/-! ### Well-formedness of inbound events (the domain on which
`Messenger.message` is exception-free; compare claim C2) -/

/-- Whether `len(v)` succeeds. -/
def hasLen : PyVal → Bool
  | .str _ => true
  | .list _ => true
  | .dict _ => true
  | _ => false

/-- The audio branch reads `attachment['payload']['url']`. -/
def audioPayloadOk (aes : List (String × PyVal)) : Bool :=
  match lookupD aes "payload" with
  | some (.dict pes) => hasKeyD pes "url"
  | _ => false

/-- The location branch reads
`attachment['payload']['coordinates']['lat' / 'long']`. -/
def locationPayloadOk (aes : List (String × PyVal)) : Bool :=
  match lookupD aes "payload" with
  | some (.dict pes) =>
    (match lookupD pes "coordinates" with
     | some (.dict ces) => hasKeyD ces "lat" && hasKeyD ces "long"
     | _ => false)
  | _ => false

/-- A truthy `text` field must support `len`. -/
def textFieldOk (mes : List (String × PyVal)) : Bool :=
  match lookupD mes "text" with
  | Option.none => true
  | some tv => !truthy tv || hasLen tv

/-- A truthy `attachments` field must be a list whose first element is a
dict carrying `'type'`, with the payload fields of the branch that type
selects. -/
def attachmentFieldOk (mes : List (String × PyVal)) : Bool :=
  match lookupD mes "attachments" with
  | Option.none => true
  | some av =>
    !truthy av ||
    (match av with
     | .list (.dict aes :: _) =>
       (match lookupD aes "type" with
        | some tv =>
          (if pyEqStr tv "audio" then audioPayloadOk aes
           else if pyEqStr tv "location" then locationPayloadOk aes
           else true)
        | Option.none => false)
     | _ => false)

/-- Events on which `Messenger.message`'s field accesses all succeed: the
event is a dict, and a truthy `message` entry is a dict satisfying
`textFieldOk` and `attachmentFieldOk`.  Absent or falsy fields are always
fine — they merely fail the corresponding predicate. -/
def messageEventOk (evt : PyVal) : Bool :=
  match evt with
  | .dict es =>
    (match lookupD es "message" with
     | Option.none => true
     | some mv =>
       !truthy mv ||
       (match mv with
        | .dict mes => textFieldOk mes && attachmentFieldOk mes
        | _ => false))
  | _ => false

/-- A button dict with its `'type'` defaulted to `"postback"` when absent
(the value `_add_postback_info` leaves behind for a dict button). -/
def buttonWithDefaultType : PyVal → PyVal
  | .dict es =>
    if hasKeyD es "type" then .dict es
    else .dict (es ++ [("type", .str "postback")])
  | v => v

/-- An element dict with every button's `'type'` defaulted (the value
`send_custom_message`'s loop leaves behind for a well-formed element). -/
def elementWithDefaultTypes : PyVal → PyVal
  | .dict ees =>
    (match lookupD ees "buttons" with
     | some (.list bs) => .dict (setD ees "buttons" (.list (bs.map buttonWithDefaultType)))
     | _ => .dict ees)
  | v => v

/-! ### Helper lemmas -/

theorem ok_bind {α β : Type} (a : α) (f : α → Except PyErr β) :
    (Except.ok a >>= f) = f a := rfl

theorem error_bind {α β : Type} (e : PyErr) (f : α → Except PyErr β) :
    ((Except.error e : Except PyErr α) >>= f) = Except.error e := rfl

theorem pure_eq_ok {α : Type} (a : α) : (pure a : Except PyErr α) = Except.ok a := rfl

/-- `splitOnEq` produces one more part than there are `'='` characters. -/
theorem splitOnEq_length (l : List Char) :
    (splitOnEq l).length = l.count '=' + 1 := by
  induction l with
  | nil => simp [splitOnEq]
  | cons c cs ih =>
    by_cases hc : c = '='
    · subst hc
      simp [splitOnEq, List.count_cons, ih]
    · rw [splitOnEq]
      rw [if_neg hc]
      rcases h : splitOnEq cs with _ | ⟨h1, t⟩
      · rw [h] at ih
        simp at ih
      · rw [h] at ih
        simp only [List.length_cons] at ih ⊢
        rw [List.count_cons]
        simp [hc, ih]

/-- A list without `'='` splits into itself alone. -/
theorem splitOnEq_no_eq (l : List Char) (h : ('=' : Char) ∉ l) :
    splitOnEq l = [l] := by
  induction l with
  | nil => rfl
  | cons c cs ih =>
    have hc : c ≠ '=' := fun hc => h (hc ▸ List.mem_cons_self c cs)
    have hcs : ('=' : Char) ∉ cs := fun hm => h (List.mem_cons_of_mem c hm)
    rw [splitOnEq, if_neg hc, ih hcs]

/-- Splitting a list with an `'='` after an `'='`-free prefix peels off the
prefix. -/
theorem splitOnEq_append (pre rest : List Char) (h : ('=' : Char) ∉ pre) :
    splitOnEq (pre ++ '=' :: rest) = pre :: splitOnEq rest := by
  induction pre with
  | nil => simp [splitOnEq]
  | cons c cs ih =>
    have hc : c ≠ '=' := fun hc => h (hc ▸ List.mem_cons_self c cs)
    have hcs : ('=' : Char) ∉ cs := fun hm => h (List.mem_cons_of_mem c hm)
    rw [List.cons_append, splitOnEq, if_neg hc, ih hcs]

/-- A hex digit is never `'='`. -/
theorem hexDigit_ne (n : Nat) : hexDigit n ≠ '=' := by
  intro hc
  have hmem : hexDigit n ∈ hexChars ∨ hexDigit n = '0' := by
    unfold hexDigit List.getD
    rcases h : hexChars.get? n with _ | c
    · right; rfl
    · left
      simpa using List.get?_mem h
  rw [hc] at hmem
  revert hmem
  decide

/-- `'='` never occurs in a hex rendering. -/
theorem hexOfBytes_no_eq (bs : List Nat) : ('=' : Char) ∉ hexOfBytes bs := by
  induction bs with
  | nil => simp [hexOfBytes]
  | cons b bs ih =>
    simp only [hexOfBytes, List.mem_cons]
    rintro (h | h | h)
    · exact hexDigit_ne _ h.symm
    · exact hexDigit_ne _ h.symm
    · exact ih h

/-- A correctly signed header validates. -/
theorem validate_ok_of_correct (secret : String) (body : List Nat) :
    validate_hub_signature secret body (sha1SigHeader secret body) = .ok true := by
  have hno : ('=' : Char) ∉ hmacHexdigest sha1HashFn (utf8Encode secret) body :=
    hexOfBytes_no_eq _
  unfold validate_hub_signature sha1SigHeader splitUnpack2
  rw [splitOnEq_append _ _ (by decide), splitOnEq_no_eq _ hno]
  simp [hashlibAttr]

/-- A header carrying any digest other than the body's HMAC-SHA1 hex digest
fails validation (whether or not the digest part itself contains `'='`). -/
theorem validate_false_of_mismatch (secret : String) (body : List Nat)
    (d : List Char) (hd : d ≠ hmacHexdigest sha1HashFn (utf8Encode secret) body) :
    validate_hub_signature secret body ("sha1".toList ++ '=' :: d) = .ok false := by
  by_cases hin : ('=' : Char) ∈ d
  · unfold validate_hub_signature splitUnpack2
    rw [splitOnEq_append _ _ (by decide)]
    have hlen : 2 ≤ (splitOnEq d).length := by
      rw [splitOnEq_length]
      have : 1 ≤ d.count '=' := List.one_le_count_iff.mpr hin
      omega
    rcases h : splitOnEq d with _ | ⟨a, _ | ⟨b, t⟩⟩ <;> rw [h] at hlen <;> simp at hlen ⊢
  · unfold validate_hub_signature splitUnpack2
    rw [splitOnEq_append _ _ (by decide), splitOnEq_no_eq _ hin]
    simp [hashlibAttr, hd]

/-- A header that does not split into exactly two parts on `'='` fails
validation without raising: the unpacking `ValueError` is caught. -/
theorem validate_false_of_malformed (secret : String) (body : List Nat)
    (hdr : List Char) (h : hdr.count '=' ≠ 1) :
    validate_hub_signature secret body hdr = .ok false := by
  unfold validate_hub_signature splitUnpack2
  have hlen : (splitOnEq hdr).length = hdr.count '=' + 1 := splitOnEq_length hdr
  rcases hs : splitOnEq hdr with _ | ⟨a, _ | ⟨b, _ | ⟨c, t⟩⟩⟩ <;> rw [hs] at hlen <;>
    simp at hlen <;> simp
  omega

theorem exceptIsOk_exists {α : Type} (x : Except PyErr α) (h : exceptIsOk x = true) :
    ∃ a, x = .ok a := by
  cases x with
  | ok a => exact ⟨a, rfl⟩
  | error e => simp [exceptIsOk] at h

/-- Truthiness of `None`. -/
theorem truthy_none : truthy .none = false := rfl

/-- When the user-message predicate fails, `Messenger.message` is
exception-free on events whose attachments are well-formed. -/
theorem message_nonuser_total (es mes : List (String × PyVal))
    (hA : lookupD es "message" = some (PyVal.dict mes))
    (hU : Messenger._is_user_message (.dict es) = .ok false)
    (h2 : attachmentFieldOk mes = true) :
    exceptIsOk (Messenger.message (.dict es)) = true := by
  unfold Messenger.message
  rw [hU]
  cases htr : truthy (PyVal.dict mes) with
  | false =>
    simp [Messenger._is_audio_message, Messenger._is_user_location,
          PyVal.getAttrGet, PyVal.getItem, hA, htr, ok_bind, pure_eq_ok, exceptIsOk]
  | true =>
    rcases hAtt : lookupD mes "attachments" with _ | av
    · simp [Messenger._is_audio_message, Messenger._is_user_location,
            PyVal.getAttrGet, PyVal.getItem, hA, hAtt, htr, truthy_none, ok_bind,
            pure_eq_ok, exceptIsOk]
    · cases htrA : truthy av with
      | false =>
        simp [Messenger._is_audio_message, Messenger._is_user_location,
              PyVal.getAttrGet, PyVal.getItem, hA, hAtt, htr, htrA, ok_bind,
              pure_eq_ok, exceptIsOk]
      | true =>
        rw [attachmentFieldOk, hAtt] at h2
        simp only [htrA, Bool.not_true, Bool.false_or] at h2
        rcases av with _ | b | n | s | xs | des
        · simp [truthy] at htrA
        · simp at h2
        · simp at h2
        · simp at h2
        · rcases xs with _ | ⟨a0, rest⟩
          · simp [truthy] at htrA
          · rcases a0 with _ | b | n | s | ys | aes
            · simp at h2
            · simp at h2
            · simp at h2
            · simp at h2
            · simp at h2
            · dsimp only at h2
              rcases hTy : lookupD aes "type" with _ | tv2
              · rw [hTy] at h2; simp at h2
              · rw [hTy] at h2
                dsimp only at h2
                cases hEq : pyEqStr tv2 "audio" with
                | true =>
                  rw [hEq] at h2
                  simp only [eq_self_iff_true, if_true] at h2
                  rw [audioPayloadOk] at h2
                  rcases hP : lookupD aes "payload" with _ | pv
                  · rw [hP] at h2; simp at h2
                  · rw [hP] at h2
                    rcases pv with _ | b | n | s | ys | pes
                    · simp at h2
                    · simp at h2
                    · simp at h2
                    · simp at h2
                    · simp at h2
                    · dsimp only at h2
                      rw [hasKeyD] at h2
                      rcases hU2 : lookupD pes "url" with _ | uv
                      · rw [hU2] at h2; simp at h2
                      · simp [Messenger._is_audio_message, PyVal.getAttrGet,
                              PyVal.getItem, PyVal.index0, hA, hAtt, hTy, hP, hU2,
                              htr, htrA, hEq, ok_bind, pure_eq_ok, exceptIsOk]
                | false =>
                  rw [hEq] at h2
                  simp only [Bool.false_eq_true, if_false] at h2
                  cases hEq2 : pyEqStr tv2 "location" with
                  | true =>
                    rw [hEq2] at h2
                    simp only [eq_self_iff_true, if_true] at h2
                    rw [locationPayloadOk] at h2
                    rcases hP : lookupD aes "payload" with _ | pv
                    · rw [hP] at h2; simp at h2
                    · rw [hP] at h2
                      rcases pv with _ | b | n | s | ys | pes
                      · simp at h2
                      · simp at h2
                      · simp at h2
                      · simp at h2
                      · simp at h2
                      · dsimp only at h2
                        rcases hC : lookupD pes "coordinates" with _ | cv
                        · rw [hC] at h2; simp at h2
                        · rw [hC] at h2
                          rcases cv with _ | b | n | s | ys | ces
                          · simp at h2
                          · simp at h2
                          · simp at h2
                          · simp at h2
                          · simp at h2
                          · dsimp only at h2
                            rw [Bool.and_eq_true, hasKeyD, hasKeyD] at h2
                            obtain ⟨hla, hlo⟩ := h2
                            rcases hLa : lookupD ces "lat" with _ | la
                            · rw [hLa] at hla; simp at hla
                            · rcases hLo : lookupD ces "long" with _ | lo
                              · rw [hLo] at hlo; simp at hlo
                              · simp [Messenger._is_audio_message,
                                      Messenger._is_user_location, PyVal.getAttrGet,
                                      PyVal.getItem, PyVal.index0, hA, hAtt, hTy, hP,
                                      hC, hLa, hLo, htr, htrA, hEq, hEq2, ok_bind,
                                      pure_eq_ok, exceptIsOk]
                  | false =>
                    simp [Messenger._is_audio_message, Messenger._is_user_location,
                          PyVal.getAttrGet, PyVal.getItem, PyVal.index0, hA, hAtt,
                          hTy, htr, htrA, hEq, hEq2, ok_bind, pure_eq_ok, exceptIsOk]
        · simp at h2

/-- When the user-message predicate holds and the text supports `len`,
`Messenger.message` is exception-free. -/
theorem message_user_total (es mes : List (String × PyVal)) (tv : PyVal)
    (hA : lookupD es "message" = some (PyVal.dict mes))
    (hU : Messenger._is_user_message (.dict es) = .ok true)
    (hT : lookupD mes "text" = some tv)
    (hL : hasLen tv = true) :
    exceptIsOk (Messenger.message (.dict es)) = true := by
  unfold Messenger.message
  rw [hU]
  rcases tv with _ | b | n | s | xs | des
  · simp [hasLen] at hL
  · simp [hasLen] at hL
  · simp [hasLen] at hL
  · simp only [PyVal.getItem, hA, hT, ok_bind, pure_eq_ok, pyLen, if_true]
    split <;> rfl
  · simp only [PyVal.getItem, hA, hT, ok_bind, pure_eq_ok, pyLen, if_true]
    split <;> rfl
  · simp only [PyVal.getItem, hA, hT, ok_bind, pure_eq_ok, pyLen, if_true]
    split <;> rfl


/-! ### Claim C2: totality of event classification -/

/-- C2 counterexample: an event whose message carries an attachments list
whose first element is an empty dict (no `'type'` field) makes
`Messenger.message` raise `KeyError` — `_is_audio_message` subscripts
`attachments[0]['type']` unguarded — rather than fall through to the
ignored branch. -/
theorem claim_C2_counterexample :
    Messenger.message
        (.dict [("message", .dict [("attachments", .list [.dict []])])]) =
      .error (.keyError "type") ∧
    Messenger.message
        (.dict [("message", .dict [("attachments", .list [.dict []])])]) ≠
      .ok .ignored := by
  refine ⟨rfl, ?_⟩
  intro hcon
  rw [show Messenger.message
        (.dict [("message", .dict [("attachments", .list [.dict []])])]) =
      .error (.keyError "type") from rfl] at hcon
  exact Except.noConfusion hcon

/-- C2 (amended): `Messenger.message` is total — one outcome, no exception —
on every event, well-formed or malformed, that is a dict whose truthy
`message` entry (if any) is a dict in which a truthy `text` entry supports
`len` and a truthy `attachments` entry is a list whose first element is a
dict carrying `'type'` together with the payload fields of the branch that
type selects; a merely absent or falsy field still just fails its predicate.
But an event whose message has an attachments list whose first element lacks
`'type'` (or the selected branch's payload fields) raises `KeyError` instead
of falling through. -/
theorem claim_C2 (evt : PyVal) (h : messageEventOk evt = true) :
    ∃ o, Messenger.message evt = .ok o := by
  apply exceptIsOk_exists
  rcases evt with _ | b | n | s | xs | es
  · simp [messageEventOk] at h
  · simp [messageEventOk] at h
  · simp [messageEventOk] at h
  · simp [messageEventOk] at h
  · simp [messageEventOk] at h
  · rw [messageEventOk] at h
    rcases hA : lookupD es "message" with _ | mv
    · have hU : Messenger._is_user_message (.dict es) = .ok false := by
        simp [Messenger._is_user_message, PyVal.getAttrGet, hA, truthy_none,
              ok_bind, pure_eq_ok]
      unfold Messenger.message
      rw [hU]
      simp [Messenger._is_audio_message, Messenger._is_user_location,
            PyVal.getAttrGet, PyVal.getItem, hA, truthy_none, ok_bind,
            pure_eq_ok, exceptIsOk]
    · rw [hA] at h
      dsimp only at h
      cases htr : truthy mv with
      | false =>
        have hU : Messenger._is_user_message (.dict es) = .ok false := by
          simp [Messenger._is_user_message, PyVal.getAttrGet, hA, htr,
                ok_bind, pure_eq_ok]
        unfold Messenger.message
        rw [hU]
        simp [Messenger._is_audio_message, Messenger._is_user_location,
              PyVal.getAttrGet, PyVal.getItem, hA, htr, ok_bind, pure_eq_ok,
              exceptIsOk]
      | true =>
        simp only [htr, Bool.not_true, Bool.false_or] at h
        rcases mv with _ | b | n | s | xs | mes
        · simp [truthy] at htr
        · simp at h
        · simp at h
        · simp at h
        · simp at h
        · dsimp only at h
          rw [Bool.and_eq_true] at h
          obtain ⟨h1, h2⟩ := h
          rw [textFieldOk] at h1
          rcases hT : lookupD mes "text" with _ | tv
          · have hU : Messenger._is_user_message (.dict es) = .ok false := by
              simp [Messenger._is_user_message, PyVal.getAttrGet, PyVal.getItem,
                    hA, hT, htr, truthy_none, ok_bind, pure_eq_ok]
            exact message_nonuser_total es mes hA hU h2
          · rw [hT] at h1
            dsimp only at h1
            cases htrT : truthy tv with
            | false =>
              have hU : Messenger._is_user_message (.dict es) = .ok false := by
                simp [Messenger._is_user_message, PyVal.getAttrGet,
                      PyVal.getItem, hA, hT, htr, htrT, ok_bind, pure_eq_ok]
              exact message_nonuser_total es mes hA hU h2
            | true =>
              simp only [htrT, Bool.not_true, Bool.false_or] at h1
              rcases hE : lookupD mes "is_echo" with _ | ev
              · have hU : Messenger._is_user_message (.dict es) = .ok true := by
                  simp [Messenger._is_user_message, PyVal.getAttrGet,
                        PyVal.getItem, hA, hT, hE, htr, htrT, truthy_none,
                        ok_bind, pure_eq_ok]
                exact message_user_total es mes tv hA hU hT h1
              · cases htrE : truthy ev with
                | true =>
                  have hU : Messenger._is_user_message (.dict es) = .ok false := by
                    simp [Messenger._is_user_message, PyVal.getAttrGet,
                          PyVal.getItem, hA, hT, hE, htr, htrT, htrE,
                          ok_bind, pure_eq_ok]
                  exact message_nonuser_total es mes hA hU h2
                | false =>
                  have hU : Messenger._is_user_message (.dict es) = .ok true := by
                    simp [Messenger._is_user_message, PyVal.getAttrGet,
                          PyVal.getItem, hA, hT, hE, htr, htrT, htrE,
                          ok_bind, pure_eq_ok]
                  exact message_user_total es mes tv hA hU hT h1

/-- C2 witness: a malformed-but-safe event — its message dict has neither
text nor attachments — classifies without error (to the ignored branch). -/
theorem claim_C2_witness :
    messageEventOk (.dict [("message", .dict [("junk", .int 1)])]) = true ∧
    ∃ o, Messenger.message (.dict [("message", .dict [("junk", .int 1)])]) = .ok o :=
  ⟨rfl, claim_C2 _ rfl⟩

/-! ### Claims C1 and C3: signature validation -/

/-- C1 counterexample: `validate_hub_signature` applied to the header
`"foo=abc"` — whose algorithm part names nothing in `hashlib` — raises
`AttributeError` (the `getattr` call sits outside the `try`), instead of
returning false as the claim states. -/
theorem claim_C1_counterexample :
    validate_hub_signature "secret" [] ("foo=abc".toList) =
      .error (.attributeError "foo") ∧
    validate_hub_signature "secret" [] ("foo=abc".toList) ≠ .ok false := by
  refine ⟨rfl, ?_⟩
  intro h
  rw [show validate_hub_signature "secret" [] ("foo=abc".toList) =
        .error (.attributeError "foo") from rfl] at h
  exact Except.noConfusion h

/-- C1 (amended): `validate_hub_signature(secret, body, header)` returns
false and never raises whenever the header cannot be split on `'='` into
exactly two parts, or names the supported `sha1` algorithm with a hex digest
that does not match the HMAC of the body; a header naming an unsupported
hash algorithm instead raises `AttributeError`. -/
theorem claim_C1 (secret : String) (body : List Nat) (hdr : List Char)
    (h : hdr.count '=' ≠ 1 ∨
         ∃ d, hdr = "sha1".toList ++ '=' :: d ∧
              d ≠ hmacHexdigest sha1HashFn (utf8Encode secret) body) :
    validate_hub_signature secret body hdr = .ok false := by
  rcases h with h | ⟨d, rfl, hd⟩
  · exact validate_false_of_malformed _ _ _ h
  · exact validate_false_of_mismatch _ _ _ hd

/-- C1 witness: the header `"nosign"` (no `'='` at all) yields false. -/
theorem claim_C1_witness :
    (("nosign".toList.count '=' ≠ 1 ∨
      ∃ d, "nosign".toList = "sha1".toList ++ '=' :: d ∧
           d ≠ hmacHexdigest sha1HashFn (utf8Encode "secret") [1, 2]) ∧
     validate_hub_signature "secret" [1, 2] ("nosign".toList) = .ok false) :=
  ⟨Or.inl (by decide), claim_C1 "secret" [1, 2] _ (Or.inl (by decide))⟩

/-- C3 (confirmed): a header carrying the lowercase hex HMAC-SHA1 of the
body keyed by the secret validates, and any other digest in the `sha1=`
position fails validation. -/
theorem claim_C3 (secret : String) (body : List Nat) :
    validate_hub_signature secret body (sha1SigHeader secret body) = .ok true ∧
    ∀ d : List Char, d ≠ hmacHexdigest sha1HashFn (utf8Encode secret) body →
      validate_hub_signature secret body ("sha1".toList ++ '=' :: d) = .ok false :=
  ⟨validate_ok_of_correct secret body,
   fun d hd => validate_false_of_mismatch secret body d hd⟩

/-- C3 witness: on the concrete body `[104, 105]` with secret `"secret"`,
the correct digest validates and the digest extended by one character (hence
unequal) fails. -/
theorem claim_C3_witness :
    (hmacHexdigest sha1HashFn (utf8Encode "secret") [104, 105] ++ ['0'] ≠
      hmacHexdigest sha1HashFn (utf8Encode "secret") [104, 105]) ∧
    validate_hub_signature "secret" [104, 105]
      (sha1SigHeader "secret" [104, 105]) = .ok true ∧
    validate_hub_signature "secret" [104, 105]
      ("sha1".toList ++ '=' ::
        (hmacHexdigest sha1HashFn (utf8Encode "secret") [104, 105] ++ ['0'])) =
      .ok false := by
  have hne : ∀ l : List Char, l ++ ['0'] ≠ l := by
    intro l h
    have h2 := congrArg List.length h
    simp at h2
  exact ⟨hne _, (claim_C3 "secret" [104, 105]).1,
         (claim_C3 "secret" [104, 105]).2 _ (hne _)⟩

/-! ### Claims C4, C5, C7, C8: dispatch, handover, long-text routing -/

/-- A dict an association-list lookup succeeds on is non-empty. -/
theorem isEmpty_false_of_lookupD (es : List (String × PyVal)) (k : String)
    (v : PyVal) (h : lookupD es k = some v) : es.isEmpty = false := by
  cases es with
  | nil => simp [lookupD] at h
  | cons e es => rfl

/-- C4 (confirmed): an exception raised by the downstream handler
(`on_new_message`) is caught inside `_handle_user_message` — which still
records the forward and logs the exception — and the webhook endpoint still
acknowledges with `"success"`. -/
theorem claim_C4 (cb : UserMessage → Except PyErr Unit) (er : PyErr)
    (t : PyVal) (sid fb_secret : String) (body : List Nat) (sig : List Char)
    (auth : List Int) (es : List (String × PyVal))
    (hcb : cb ⟨t, sid, "facebook"⟩ = .error er)
    (hsig : validate_hub_signature fb_secret body sig = .ok true)
    (hmsg : hasKeyD es "message" = true)
    (hout : Messenger.message (.dict es) = .ok (.forwarded t)) :
    Messenger._handle_user_message cb t sid = .ok ⟨[], [t], 0, 1⟩ ∧
    webhook fb_secret body sig auth cb sid (.dict es) =
      .ok ("success", ⟨[], [t], 0, 1⟩) := by
  have hh : Messenger._handle_user_message cb t sid = .ok ⟨[], [t], 0, 1⟩ := by
    unfold Messenger._handle_user_message
    rw [hcb]
  refine ⟨hh, ?_⟩
  have he : Messenger.handleEvent auth cb sid (.dict es) = .ok ⟨[], [t], 0, 1⟩ := by
    unfold Messenger.handleEvent
    dsimp only
    rw [hmsg]
    simp only [eq_self_iff_true, if_true]
    unfold Messenger.messageRun
    rw [hout]
    simp only [ok_bind]
    exact hh
  unfold webhook
  rw [hsig]
  simp [he, ok_bind, pure_eq_ok]

/-- C4 witness: a handler that always raises `TypeError` on the user text
`"hi"`: the forward is recorded, the exception logged, and the webhook
answers `"success"`. -/
theorem claim_C4_witness :
    ((fun _ : UserMessage => (Except.error .typeError : Except PyErr Unit))
        ⟨.str "hi", "user1", "facebook"⟩ = .error .typeError) ∧
    validate_hub_signature "secret" [1] (sha1SigHeader "secret" [1]) = .ok true ∧
    hasKeyD [("message", PyVal.dict [("text", .str "hi")])] "message" = true ∧
    Messenger.message (.dict [("message", .dict [("text", .str "hi")])]) =
      .ok (.forwarded (.str "hi")) ∧
    webhook "secret" [1] (sha1SigHeader "secret" [1]) []
        (fun _ => .error .typeError) "user1"
        (.dict [("message", .dict [("text", .str "hi")])]) =
      .ok ("success", ⟨[], [.str "hi"], 0, 1⟩) := by
  refine ⟨rfl, validate_ok_of_correct "secret" [1], rfl, rfl, ?_⟩
  exact (claim_C4 (fun _ => .error .typeError) .typeError (.str "hi") "user1"
      "secret" [1] (sha1SigHeader "secret" [1]) []
      [("message", PyVal.dict [("text", .str "hi")])] rfl
      (validate_ok_of_correct "secret" [1]) rfl rfl).2

/-- C5 (confirmed): a request-thread-control event (carrying a truthy
requesting app id and a metadata field) triggers, when the app id is
authorized, exactly one pass-thread-control command naming that app id and
the event metadata plus exactly one `/passed_thread_control` forward and no
warning; when unauthorized, no command, no forward, one warning. -/
theorem claim_C5 (auth : List Int) (cb : UserMessage → Except PyErr Unit)
    (sid : String) (es rtc : List (String × PyVal)) (appId md : PyVal)
    (hR : lookupD es "request_thread_control" = some (.dict rtc))
    (hApp : lookupD rtc "requested_owner_app_id" = some appId)
    (htrApp : truthy appId = true)
    (hMd : lookupD rtc "metadata" = some md) :
    (auth.any (fun n => pyEqInt appId n) = true →
      ∃ eff : Effects, Messenger.handover auth cb sid (.dict es) = .ok eff ∧
        eff.sentCommands = [(appId, md)] ∧
        eff.forwards = [.str "/passed_thread_control"] ∧ eff.warnings = 0) ∧
    (auth.any (fun n => pyEqInt appId n) = false →
      Messenger.handover auth cb sid (.dict es) = .ok ⟨[], [], 1, 0⟩) := by
  have hrtcE : rtc.isEmpty = false := isEmpty_false_of_lookupD _ _ _ hApp
  have htR : truthy (PyVal.dict rtc) = true := by simp [truthy, hrtcE]
  have hReq : Messenger._is_request_thread_control (.dict es) = .ok true := by
    simp [Messenger._is_request_thread_control, PyVal.getAttrGet, PyVal.getItem,
          hR, hApp, htrApp, htR, ok_bind, pure_eq_ok]
  constructor
  · intro hAuth
    rcases hc : cb ⟨.str "/passed_thread_control", sid, "facebook"⟩ with er2 | u
    · have hh : Messenger._handle_user_message cb (.str "/passed_thread_control")
          sid = .ok ⟨[], [.str "/passed_thread_control"], 0, 1⟩ := by
        unfold Messenger._handle_user_message
        rw [hc]
      refine ⟨⟨[(appId, md)], [.str "/passed_thread_control"], 0, 1⟩, ?_, rfl, rfl, rfl⟩
      unfold Messenger.handover
      rw [hReq]
      simp only [ok_bind, eq_self_iff_true, if_true, PyVal.getItem, hR, hApp, hMd]
      rw [hAuth]
      simp [hh, ok_bind, pure_eq_ok]
    · have hh : Messenger._handle_user_message cb (.str "/passed_thread_control")
          sid = .ok ⟨[], [.str "/passed_thread_control"], 0, 0⟩ := by
        unfold Messenger._handle_user_message
        rw [hc]
      refine ⟨⟨[(appId, md)], [.str "/passed_thread_control"], 0, 0⟩, ?_, rfl, rfl, rfl⟩
      unfold Messenger.handover
      rw [hReq]
      simp only [ok_bind, eq_self_iff_true, if_true, PyVal.getItem, hR, hApp, hMd]
      rw [hAuth]
      simp [hh, ok_bind, pure_eq_ok]
  · intro hAuth
    unfold Messenger.handover
    rw [hReq]
    simp only [ok_bind, eq_self_iff_true, if_true, PyVal.getItem, hR, hApp]
    rw [hAuth]
    simp [ok_bind, pure_eq_ok]

/-- C5 witness: app id 42 with authorized set `[42]` (one command, one
synthetic forward) and with authorized set `[7]` (warning only). -/
theorem claim_C5_witness :
    (([42] : List Int).any (fun n => pyEqInt (.int 42) n) = true) ∧
    (∃ eff : Effects,
      Messenger.handover [42] (fun _ => .ok ()) "u"
          (.dict [("request_thread_control",
            .dict [("requested_owner_app_id", .int 42), ("metadata", .str "m")])]) =
        .ok eff ∧
      eff.sentCommands = [(.int 42, .str "m")] ∧
      eff.forwards = [.str "/passed_thread_control"] ∧ eff.warnings = 0) ∧
    (([7] : List Int).any (fun n => pyEqInt (.int 42) n) = false) ∧
    Messenger.handover [7] (fun _ => .ok ()) "u"
        (.dict [("request_thread_control",
          .dict [("requested_owner_app_id", .int 42), ("metadata", .str "m")])]) =
      .ok ⟨[], [], 1, 0⟩ := by
  refine ⟨by decide, ?_, by decide, ?_⟩
  · exact (claim_C5 [42] (fun _ => .ok ()) "u"
      [("request_thread_control",
        .dict [("requested_owner_app_id", .int 42), ("metadata", .str "m")])]
      [("requested_owner_app_id", .int 42), ("metadata", .str "m")]
      (.int 42) (.str "m") rfl rfl rfl rfl).1 (by decide)
  · exact (claim_C5 [7] (fun _ => .ok ()) "u"
      [("request_thread_control",
        .dict [("requested_owner_app_id", .int 42), ("metadata", .str "m")])]
      [("requested_owner_app_id", .int 42), ("metadata", .str "m")]
      (.int 42) (.str "m") rfl rfl rfl rfl).2 (by decide)

/-- C7 (confirmed): a user text message longer than 512 characters is
forwarded as the fixed `/long_text` fallback intent; one of length at most
512 (in particular exactly 512) is forwarded verbatim. -/
theorem claim_C7 (es mes : List (String × PyVal)) (t : String)
    (hA : lookupD es "message" = some (.dict mes))
    (hT : lookupD mes "text" = some (.str t))
    (hne : t ≠ "")
    (hE : (match lookupD mes "is_echo" with
           | Option.none => true
           | some ev => !truthy ev) = true) :
    (512 < t.length →
      Messenger.message (.dict es) = .ok (.forwarded (.str "/long_text"))) ∧
    (t.length ≤ 512 →
      Messenger.message (.dict es) = .ok (.forwarded (.str t))) := by
  have hmesE : mes.isEmpty = false := isEmpty_false_of_lookupD _ _ _ hT
  have htrM : truthy (PyVal.dict mes) = true := by simp [truthy, hmesE]
  have htrT : truthy (PyVal.str t) = true := by simp [truthy, hne]
  have hU : Messenger._is_user_message (.dict es) = .ok true := by
    rcases hEe : lookupD mes "is_echo" with _ | ev
    · simp [Messenger._is_user_message, PyVal.getAttrGet, PyVal.getItem, hA, hT,
            hEe, htrM, htrT, truthy_none, ok_bind, pure_eq_ok]
    · rw [hEe] at hE
      dsimp only at hE
      simp [Messenger._is_user_message, PyVal.getAttrGet, PyVal.getItem, hA, hT,
            hEe, htrM, htrT, hE, ok_bind, pure_eq_ok]
  constructor
  · intro hlen
    unfold Messenger.message
    rw [hU]
    simp [PyVal.getItem, hA, hT, pyLen, hlen, ok_bind, pure_eq_ok]
  · intro hlen
    unfold Messenger.message
    rw [hU]
    have hnl : ¬ (512 < t.length) := by omega
    simp [PyVal.getItem, hA, hT, pyLen, hnl, ok_bind, pure_eq_ok]

/-- C7 witness: a 513-character text routes to `/long_text`; a 512-character
text is forwarded verbatim. -/
theorem claim_C7_witness :
    Messenger.message (.dict [("message",
        .dict [("text", .str (String.mk (List.replicate 513 'a')))])]) =
      .ok (.forwarded (.str "/long_text")) ∧
    Messenger.message (.dict [("message",
        .dict [("text", .str (String.mk (List.replicate 512 'a')))])]) =
      .ok (.forwarded (.str (String.mk (List.replicate 512 'a')))) := by
  have hl1 : (String.mk (List.replicate 513 'a')).length = 513 := by
    show (List.replicate 513 'a').length = 513
    rw [List.length_replicate]
  have hl2 : (String.mk (List.replicate 512 'a')).length = 512 := by
    show (List.replicate 512 'a').length = 512
    rw [List.length_replicate]
  have hne1 : String.mk (List.replicate 513 'a') ≠ "" := by
    intro hcon
    have := congrArg String.length hcon
    rw [hl1] at this
    simp at this
  have hne2 : String.mk (List.replicate 512 'a') ≠ "" := by
    intro hcon
    have := congrArg String.length hcon
    rw [hl2] at this
    simp at this
  constructor
  · exact (claim_C7
      [("message", .dict [("text", .str (String.mk (List.replicate 513 'a')))])]
      [("text", .str (String.mk (List.replicate 513 'a')))]
      (String.mk (List.replicate 513 'a')) rfl rfl hne1 rfl).1 (by rw [hl1]; omega)
  · exact (claim_C7
      [("message", .dict [("text", .str (String.mk (List.replicate 512 'a')))])]
      [("text", .str (String.mk (List.replicate 512 'a')))]
      (String.mk (List.replicate 512 'a')) rfl rfl hne2 rfl).2 (by rw [hl2])

/-- C8 (confirmed): an event classified as pass-thread-control (its
pass-control predicate holds and the request-control predicate, checked
first by the `elif` chain, does not) makes `handover` forward exactly one
`/reconnect_user` synthetic intent — regardless of the authorized set, of
which app id is named, and of any notion of prior state (the handler is
stateless) — with no command and no warning. -/
theorem claim_C8 (auth : List Int) (cb : UserMessage → Except PyErr Unit)
    (sid : String) (msg : PyVal)
    (hReq : Messenger._is_request_thread_control msg = .ok false)
    (hPass : Messenger._is_pass_thread_control msg = .ok true) :
    ∃ eff : Effects, Messenger.handover auth cb sid msg = .ok eff ∧
      eff.forwards = [.str "/reconnect_user"] ∧ eff.sentCommands = [] ∧
      eff.warnings = 0 := by
  rcases hc : cb ⟨.str "/reconnect_user", sid, "facebook"⟩ with er | u
  · refine ⟨⟨[], [.str "/reconnect_user"], 0, 1⟩, ?_, rfl, rfl, rfl⟩
    have hh : Messenger._handle_user_message cb (.str "/reconnect_user") sid =
        .ok ⟨[], [.str "/reconnect_user"], 0, 1⟩ := by
      unfold Messenger._handle_user_message
      rw [hc]
    simp [Messenger.handover, hReq, hPass, hh, ok_bind, pure_eq_ok]
  · refine ⟨⟨[], [.str "/reconnect_user"], 0, 0⟩, ?_, rfl, rfl, rfl⟩
    have hh : Messenger._handle_user_message cb (.str "/reconnect_user") sid =
        .ok ⟨[], [.str "/reconnect_user"], 0, 0⟩ := by
      unfold Messenger._handle_user_message
      rw [hc]
    simp [Messenger.handover, hReq, hPass, hh, ok_bind, pure_eq_ok]

/-- C8 witness: a pass-thread-control event naming app id 7, with a
non-empty authorized set, forwards exactly `/reconnect_user`. -/
theorem claim_C8_witness :
    Messenger._is_request_thread_control
        (.dict [("pass_thread_control", .dict [("new_owner_app_id", .int 7)])]) =
      .ok false ∧
    Messenger._is_pass_thread_control
        (.dict [("pass_thread_control", .dict [("new_owner_app_id", .int 7)])]) =
      .ok true ∧
    ∃ eff : Effects,
      Messenger.handover [1, 2] (fun _ => .ok ()) "u"
          (.dict [("pass_thread_control", .dict [("new_owner_app_id", .int 7)])]) =
        .ok eff ∧
      eff.forwards = [.str "/reconnect_user"] ∧ eff.sentCommands = [] ∧
      eff.warnings = 0 :=
  ⟨rfl, rfl, claim_C8 [1, 2] (fun _ => .ok ()) "u" _ rfl rfl⟩

/-! ### Claims C6, C9, C10: outbound button shaping -/

/-- Lookup across an append: the left entries win. -/
theorem lookupD_append (es fs : List (String × PyVal)) (k : String) :
    lookupD (es ++ fs) k =
      (match lookupD es k with
       | some v => some v
       | Option.none => lookupD fs k) := by
  induction es with
  | nil => simp [lookupD]
  | cons e es ih =>
    obtain ⟨k1, v1⟩ := e
    by_cases hk : k1 = k
    · subst hk
      simp [lookupD]
    · simp [lookupD, hk, ih]

/-- Appending a binding for a key makes the key present. -/
theorem hasKeyD_append_key (es : List (String × PyVal)) (k : String) (v : PyVal) :
    hasKeyD (es ++ [(k, v)]) k = true := by
  unfold hasKeyD
  rw [lookupD_append]
  rcases h : lookupD es k with _ | w
  · simp [lookupD]
  · simp

/-- Appending a binding for an absent key makes lookup find it. -/
theorem lookupD_append_missing (es : List (String × PyVal)) (k : String)
    (v : PyVal) (h : hasKeyD es k = false) :
    lookupD (es ++ [(k, v)]) k = some v := by
  unfold hasKeyD at h
  rw [lookupD_append]
  rcases hl : lookupD es k with _ | w
  · simp [lookupD]
  · rw [hl] at h
    simp at h

/-- `exMapM` over elements on which `f` computes `g` elementwise. -/
theorem exMapM_map_of_all (f : PyVal → Except PyErr PyVal) (g : PyVal → PyVal)
    (l : List PyVal) (h : ∀ a ∈ l, f a = .ok (g a)) :
    exMapM f l = .ok (l.map g) := by
  induction l with
  | nil => rfl
  | cons a as ih =>
    unfold exMapM
    rw [h a (List.mem_cons_self a as), ih (fun b hb => h b (List.mem_cons_of_mem a hb))]
    rfl

/-- `exMapM` fixes a list every element of which `f` fixes. -/
theorem exMapM_fixed (f : PyVal → Except PyErr PyVal) (l : List PyVal)
    (h : ∀ a ∈ l, f a = .ok a) : exMapM f l = .ok l := by
  have := exMapM_map_of_all f id l (by simpa using h)
  simpa using this

/-- Every output element of a successful `exMapM` is the image of an input
element. -/
theorem exMapM_ok_mem (f : PyVal → Except PyErr PyVal) (l l' : List PyVal)
    (h : exMapM f l = .ok l') : ∀ b ∈ l', ∃ a ∈ l, f a = .ok b := by
  induction l generalizing l' with
  | nil =>
    unfold exMapM at h
    injection h with h
    subst h
    intro b hb
    simp at hb
  | cons a as ih =>
    unfold exMapM at h
    rcases hfa : f a with e | b0 <;> rw [hfa] at h
    · exact absurd h (by simp)
    · rcases hres : exMapM f as with e | bs <;> rw [hres] at h
      · exact absurd h (by simp)
      · injection h with h
        subst h
        intro b hb
        rcases List.mem_cons.mp hb with hb | hb
        · exact ⟨a, List.mem_cons_self a as, hb ▸ hfa⟩
        · obtain ⟨a1, ha1, hfa1⟩ := ih bs hres b hb
          exact ⟨a1, List.mem_cons_of_mem a ha1, hfa1⟩

/-- Successful `exMapM` relates inputs and outputs position by position. -/
theorem exMapM_ok_get (f : PyVal → Except PyErr PyVal) (l l' : List PyVal)
    (h : exMapM f l = .ok l') :
    l'.length = l.length ∧
    ∀ i a, l.get? i = some a → ∃ b, f a = .ok b ∧ l'.get? i = some b := by
  induction l generalizing l' with
  | nil =>
    unfold exMapM at h
    injection h with h
    subst h
    exact ⟨rfl, by intro i a ha; simp at ha⟩
  | cons a as ih =>
    unfold exMapM at h
    rcases hfa : f a with e | b0 <;> rw [hfa] at h
    · exact absurd h (by simp)
    · rcases hres : exMapM f as with e | bs <;> rw [hres] at h
      · exact absurd h (by simp)
      · injection h with h
        subst h
        obtain ⟨ihl, ihp⟩ := ih bs hres
        refine ⟨by simp [ihl], ?_⟩
        intro i x hx
        cases i with
        | zero =>
          simp only [List.get?] at hx
          injection hx with hx
          subst hx
          exact ⟨b0, hfa, rfl⟩
        | succ j =>
          simp only [List.get?] at hx ⊢
          exact ihp j x hx

/-- On a dict button, `normalizeButton` succeeds with the defaulted dict. -/
theorem normalizeButton_dict (bes : List (String × PyVal)) :
    MessengerBot.normalizeButton (.dict bes) =
      .ok (buttonWithDefaultType (.dict bes)) := by
  unfold MessengerBot.normalizeButton buttonWithDefaultType
  cases h : hasKeyD bes "type" <;> simp [h]

/-- `normalizeButton` fixes its own outputs. -/
theorem normalizeButton_fixed (b c : PyVal)
    (h : MessengerBot.normalizeButton b = .ok c) :
    MessengerBot.normalizeButton c = .ok c := by
  rcases b with _ | b0 | n | s0 | xs | es <;>
    simp [MessengerBot.normalizeButton] at h
  cases hk : hasKeyD es "type" <;> rw [hk] at h
  · simp at h
    subst h
    simp [MessengerBot.normalizeButton, hasKeyD_append_key]
  · simp at h
    subst h
    simp [MessengerBot.normalizeButton, hk]

/-- `normalizeQuickReply` fixes its own outputs. -/
theorem normalizeQuickReply_fixed (b c : PyVal)
    (h : MessengerBot.normalizeQuickReply b = .ok c) :
    MessengerBot.normalizeQuickReply c = .ok c := by
  rcases b with _ | b0 | n | s0 | xs | es <;>
    simp [MessengerBot.normalizeQuickReply] at h
  cases hk : hasKeyD es "content_type" <;> rw [hk] at h
  · simp at h
    subst h
    simp [MessengerBot.normalizeQuickReply, hasKeyD_append_key]
  · simp at h
    subst h
    simp [MessengerBot.normalizeQuickReply, hk]

/-- `_add_postback_info` on all-dict buttons succeeds with the defaulted
buttons, in order. -/
theorem addPostbackInfo_ok (bs : List PyVal)
    (h : ∀ b ∈ bs, ∃ bes, b = .dict bes) :
    MessengerBot._add_postback_info bs = .ok (bs.map buttonWithDefaultType) := by
  unfold MessengerBot._add_postback_info
  refine exMapM_map_of_all _ _ _ ?_
  intro a ha
  obtain ⟨bes, rfl⟩ := h a ha
  exact normalizeButton_dict bes

/-- On a well-formed element, `normalizeElement` succeeds with the
buttons-defaulted element. -/
theorem normalizeElement_ok (ees : List (String × PyVal)) (bs : List PyVal)
    (hb : lookupD ees "buttons" = some (.list bs))
    (hbd : ∀ b ∈ bs, ∃ bes, b = .dict bes) :
    MessengerBot.normalizeElement (.dict ees) =
      .ok (elementWithDefaultTypes (.dict ees)) := by
  unfold MessengerBot.normalizeElement elementWithDefaultTypes
  dsimp only
  rw [hb]
  dsimp only
  rw [addPostbackInfo_ok bs hbd]

/-- C6 (confirmed): with more than 3 buttons, `send_text_with_buttons` hands
no button-template payload to the send primitive — it logs one warning and
sends the original text through the plain-text path (one text payload per
paragraph). -/
theorem claim_C6 (text : String) (buttons : List PyVal)
    (h : 3 < buttons.length) :
    MessengerBot.send_text_with_buttons text buttons =
      .ok (MessengerBot.send_text_message text, 1) ∧
    ∀ p ∈ MessengerBot.send_text_message text, p.isButtonTemplate = false := by
  constructor
  · unfold MessengerBot.send_text_with_buttons
    rw [if_pos h]
  · intro p hp
    unfold MessengerBot.send_text_message at hp
    rw [List.mem_map] at hp
    obtain ⟨q, hq, rfl⟩ := hp
    rfl

/-- C6 witness: four buttons degrade to plain text. -/
theorem claim_C6_witness :
    (3 < ([.dict [], .dict [], .dict [], .dict []] : List PyVal).length) ∧
    MessengerBot.send_text_with_buttons "hello"
        [.dict [], .dict [], .dict [], .dict []] =
      .ok (MessengerBot.send_text_message "hello", 1) ∧
    ∀ p ∈ MessengerBot.send_text_message "hello", p.isButtonTemplate = false := by
  refine ⟨by decide, ?_, ?_⟩
  · exact (claim_C6 "hello" [.dict [], .dict [], .dict [], .dict []] (by decide)).1
  · exact (claim_C6 "hello" [.dict [], .dict [], .dict [], .dict []] (by decide)).2

/-- C9 (confirmed): with at most 3 dict buttons, `send_text_with_buttons`
sends exactly the buttons with `'type'` defaulted to `"postback"` where
absent; `send_custom_message` applies the same defaulting inside every
element's button list; a button that already has `'type'` is sent
unchanged. -/
theorem claim_C9 (text : String) (buttons elements : List PyVal)
    (hlen : buttons.length ≤ 3)
    (hbtn : ∀ b ∈ buttons, ∃ bes, b = .dict bes)
    (helems : ∀ el ∈ elements, ∃ ees bs, el = .dict ees ∧
      lookupD ees "buttons" = some (.list bs) ∧ ∀ b ∈ bs, ∃ bes, b = .dict bes) :
    MessengerBot.send_text_with_buttons text buttons =
      .ok ([.buttonTemplate text (buttons.map buttonWithDefaultType)], 0) ∧
    MessengerBot.send_custom_message elements =
      .ok ([.genericTemplate (elements.map elementWithDefaultTypes)], 0) ∧
    (∀ bes : List (String × PyVal), hasKeyD bes "type" = false →
      buttonWithDefaultType (.dict bes) = .dict (bes ++ [("type", .str "postback")]) ∧
      lookupD (bes ++ [("type", .str "postback")]) "type" = some (.str "postback")) ∧
    (∀ bes : List (String × PyVal), hasKeyD bes "type" = true →
      buttonWithDefaultType (.dict bes) = .dict bes) := by
  refine ⟨?_, ?_, ?_, ?_⟩
  · unfold MessengerBot.send_text_with_buttons
    rw [if_neg (by omega)]
    rw [addPostbackInfo_ok buttons hbtn]
  · unfold MessengerBot.send_custom_message
    rw [exMapM_map_of_all MessengerBot.normalizeElement elementWithDefaultTypes
        elements ?_]
    intro el hel
    obtain ⟨ees, bs, rfl, hb, hbd⟩ := helems el hel
    exact normalizeElement_ok ees bs hb hbd
  · intro bes hk
    refine ⟨?_, lookupD_append_missing bes "type" (.str "postback") hk⟩
    unfold buttonWithDefaultType
    dsimp only
    rw [hk]
    simp
  · intro bes hk
    unfold buttonWithDefaultType
    dsimp only
    rw [hk]
    simp

/-- C9 witness: one button without `type` (defaulted to postback), one with
an explicit `web_url` type (unchanged), in both template paths. -/
theorem claim_C9_witness :
    MessengerBot.send_text_with_buttons "pick"
        [.dict [("title", .str "a")], .dict [("type", .str "web_url")]] =
      .ok ([.buttonTemplate "pick"
        [.dict [("title", .str "a"), ("type", .str "postback")],
         .dict [("type", .str "web_url")]]], 0) ∧
    MessengerBot.send_custom_message
        [.dict [("title", .str "el"),
                ("buttons", .list [.dict [("title", .str "a")]])]] =
      .ok ([.genericTemplate
        [.dict [("title", .str "el"),
                ("buttons", .list [.dict [("title", .str "a"),
                                          ("type", .str "postback")]])]]], 0) := by
  have h := claim_C9 "pick"
    [.dict [("title", .str "a")], .dict [("type", .str "web_url")]]
    [.dict [("title", .str "el"),
            ("buttons", .list [.dict [("title", .str "a")]])]]
    (by decide)
    (by intro b hb
        rcases List.mem_cons.mp hb with rfl | hb
        · exact ⟨[("title", .str "a")], rfl⟩
        · rcases List.mem_cons.mp hb with rfl | hb
          · exact ⟨[("type", .str "web_url")], rfl⟩
          · simp at hb)
    (by intro el hel
        rcases List.mem_cons.mp hel with rfl | hel
        · refine ⟨[("title", .str "el"),
                   ("buttons", .list [.dict [("title", .str "a")]])],
                  [.dict [("title", .str "a")]], rfl, rfl, ?_⟩
          intro b hb
          rcases List.mem_cons.mp hb with rfl | hb
          · exact ⟨[("title", .str "a")], rfl⟩
          · simp at hb
        · simp at hel)
  exact ⟨h.1, h.2.1⟩

/-- C10 (confirmed): `_add_postback_info` and `_add_text_info` are
idempotent and frame-preserving — a second application fixes the result,
the length and order of entries are preserved, and every key-value pair of
an input dict survives in the output dict at the same position. -/
theorem claim_C10 (bs qs bs1 qs1 : List PyVal)
    (hb : MessengerBot._add_postback_info bs = .ok bs1)
    (hq : MessengerBot._add_text_info qs = .ok qs1) :
    MessengerBot._add_postback_info bs1 = .ok bs1 ∧
    MessengerBot._add_text_info qs1 = .ok qs1 ∧
    bs1.length = bs.length ∧ qs1.length = qs.length ∧
    (∀ i es, bs.get? i = some (.dict es) →
      ∃ es', bs1.get? i = some (.dict es') ∧ ∀ kv ∈ es, kv ∈ es') ∧
    (∀ i es, qs.get? i = some (.dict es) →
      ∃ es', qs1.get? i = some (.dict es') ∧ ∀ kv ∈ es, kv ∈ es') := by
  unfold MessengerBot._add_postback_info at hb ⊢
  unfold MessengerBot._add_text_info at hq ⊢
  obtain ⟨hbl, hbp⟩ := exMapM_ok_get _ _ _ hb
  obtain ⟨hql, hqp⟩ := exMapM_ok_get _ _ _ hq
  refine ⟨?_, ?_, hbl, hql, ?_, ?_⟩
  · refine exMapM_fixed _ _ ?_
    intro c hc
    obtain ⟨a, _, hfa⟩ := exMapM_ok_mem _ _ _ hb c hc
    exact normalizeButton_fixed a c hfa
  · refine exMapM_fixed _ _ ?_
    intro c hc
    obtain ⟨a, _, hfa⟩ := exMapM_ok_mem _ _ _ hq c hc
    exact normalizeQuickReply_fixed a c hfa
  · intro i es hes
    obtain ⟨b, hfb, hb1⟩ := hbp i _ hes
    unfold MessengerBot.normalizeButton at hfb
    dsimp only at hfb
    cases hk : hasKeyD es "type" <;> rw [hk] at hfb <;> simp at hfb <;> subst hfb
    · exact ⟨es ++ [("type", .str "postback")], hb1,
        fun kv hkv => List.mem_append_left _ hkv⟩
    · exact ⟨es, hb1, fun kv hkv => hkv⟩
  · intro i es hes
    obtain ⟨b, hfb, hb1⟩ := hqp i _ hes
    unfold MessengerBot.normalizeQuickReply at hfb
    dsimp only at hfb
    cases hk : hasKeyD es "content_type" <;> rw [hk] at hfb <;> simp at hfb <;>
      subst hfb
    · exact ⟨es ++ [("content_type", .str "text")], hb1,
        fun kv hkv => List.mem_append_left _ hkv⟩
    · exact ⟨es, hb1, fun kv hkv => hkv⟩

/-- C10 witness: concrete button and quick-reply lists, one entry missing
the defaulted key and one carrying it. -/
theorem claim_C10_witness :
    MessengerBot._add_postback_info
        [.dict [("title", .str "a")], .dict [("type", .str "web_url")]] =
      .ok [.dict [("title", .str "a"), ("type", .str "postback")],
           .dict [("type", .str "web_url")]] ∧
    MessengerBot._add_text_info [.dict [("title", .str "q")]] =
      .ok [.dict [("title", .str "q"), ("content_type", .str "text")]] ∧
    MessengerBot._add_postback_info
        [.dict [("title", .str "a"), ("type", .str "postback")],
         .dict [("type", .str "web_url")]] =
      .ok [.dict [("title", .str "a"), ("type", .str "postback")],
           .dict [("type", .str "web_url")]] ∧
    MessengerBot._add_text_info
        [.dict [("title", .str "q"), ("content_type", .str "text")]] =
      .ok [.dict [("title", .str "q"), ("content_type", .str "text")]] := by
  have h := claim_C10
    [.dict [("title", .str "a")], .dict [("type", .str "web_url")]]
    [.dict [("title", .str "q")]]
    [.dict [("title", .str "a"), ("type", .str "postback")],
     .dict [("type", .str "web_url")]]
    [.dict [("title", .str "q"), ("content_type", .str "text")]]
    rfl rfl
  exact ⟨rfl, rfl, h.1, h.2.1⟩
